import Mathlib

/-!
Verification of the generate-execute-validate-retry agent (`agent.py`) and its
tabular comparison pipeline.

Modelling conventions:
* A pandas cell is `Cell`: `null` models `NaN`/`NaT`/missing, `num q` models a
  float cell (as an exact rational; the floats handled by the flows below are
  finite decimals), `str s` models a text cell.
* A DataFrame is `Table`: an ordered list of column names plus rows, each row a
  list of cells positionally aligned with the columns.
* `pd.to_numeric(..., errors="coerce")` on strings is modelled by `parseNumber`
  (optional sign, digits, optional fraction, optional exponent); every
  unparseable string coerces to `Cell.null`, which also models the float `NaN`
  result pandas produces there.
* String helpers (`lower`, `strip`, `split("-")`, substring search) are
  modelled character-wise so that all definitions evaluate inside the kernel.
-/

/-- A single table cell: pandas `NaN`/`NaT`/`None` (`null`), a numeric cell
(`num`), or a text cell (`str`). -/
inductive Cell where
  | null : Cell
  | num : Rat → Cell
  | str : String → Cell
deriving DecidableEq, Repr

/-- Model of `pd.isna` on a cell. -/
def Cell.isNull : Cell → Bool
  | .null => true
  | _ => false

/-- A DataFrame: ordered column names and rows of cells aligned positionally
with the columns. -/
structure Table where
  cols : List String
  rows : List (List Cell)
deriving DecidableEq, Repr

/-- ASCII lower-casing of one character, as Python `str.lower` acts on the
ASCII range used by the column names and header words in the code. -/
def charLower (c : Char) : Char :=
  match c with
  | 'A' => 'a' | 'B' => 'b' | 'C' => 'c' | 'D' => 'd' | 'E' => 'e'
  | 'F' => 'f' | 'G' => 'g' | 'H' => 'h' | 'I' => 'i' | 'J' => 'j'
  | 'K' => 'k' | 'L' => 'l' | 'M' => 'm' | 'N' => 'n' | 'O' => 'o'
  | 'P' => 'p' | 'Q' => 'q' | 'R' => 'r' | 'S' => 's' | 'T' => 't'
  | 'U' => 'u' | 'V' => 'v' | 'W' => 'w' | 'X' => 'x' | 'Y' => 'y'
  | 'Z' => 'z'
  | c => c

/-- Python `str.lower()` (ASCII fragment). -/
def lowerStr (s : String) : String :=
  String.mk (s.data.map charLower)

/-- Whitespace recognized by Python `str.strip()` on the inputs in scope. -/
def isWsChar (c : Char) : Bool :=
  c == ' ' || c == '\t' || c == '\n' || c == '\r'

/-- Python `str.strip()`. -/
def trimStr (s : String) : String :=
  String.mk (((s.data.dropWhile isWsChar).reverse.dropWhile isWsChar).reverse)

/-- Occurrence test `pat in s` over character lists (Python `in` operator for
substrings). -/
def occursIn (pat : List Char) : List Char → Bool
  | [] => pat.isEmpty
  | c :: rest => List.isPrefixOf pat (c :: rest) || occursIn pat rest

/-- Python `a in b` for strings. -/
def strContains (s pat : String) : Bool :=
  occursIn pat.data s.data

/-- Python `s.startswith(pre)`. -/
def strStartsWith (s pre : String) : Bool :=
  List.isPrefixOf pre.data s.data

/-- Python `s.split(sep)` for a one-character separator, over character
lists.  `split` on the empty string yields `[""]`, as in Python. -/
def splitOnChar (sep : Char) : List Char → List (List Char)
  | [] => [[]]
  | c :: rest =>
    if c == sep then [] :: splitOnChar sep rest
    else
      match splitOnChar sep rest with
      | h :: t => (c :: h) :: t
      | [] => [[c]]

/-- Value of a digit list, most significant first. -/
def digitsVal (ds : List Char) : Nat :=
  ds.foldl (fun a c => a * 10 + (c.toNat - 48)) 0

/-- The numeric-string parser behind `pd.to_numeric(..., errors="coerce")`:
optional sign, integer digits, optional `.` and fraction digits (at least one
digit overall), optional exponent.  Returns `none` for every unparseable
string, which the callers turn into a null cell — to_numeric never raises with
`errors="coerce"`. -/
def parseNumber (s : String) : Option Rat :=
  let cs := s.data
  let (neg, cs1) :=
    match cs with
    | '-' :: r => (true, r)
    | '+' :: r => (false, r)
    | _ => (false, cs)
  let ip := cs1.takeWhile Char.isDigit
  let cs2 := cs1.dropWhile Char.isDigit
  let (fp, cs3) :=
    match cs2 with
    | '.' :: r => (r.takeWhile Char.isDigit, r.dropWhile Char.isDigit)
    | _ => ([], cs2)
  if ip.isEmpty && fp.isEmpty then none
  else
    let (eok, ev, cs4) :=
      match cs3 with
      | 'e' :: r | 'E' :: r =>
        let (eneg, r1) :=
          match r with
          | '-' :: r2 => (true, r2)
          | '+' :: r2 => (false, r2)
          | _ => (false, r)
        let ed := r1.takeWhile Char.isDigit
        let r2 := r1.dropWhile Char.isDigit
        if ed.isEmpty then (false, (0 : Int), cs3)
        else (true, if eneg then -(digitsVal ed : Int) else (digitsVal ed : Int), r2)
      | _ => (true, (0 : Int), cs3)
    if !eok then none
    else if !cs4.isEmpty then none
    else
      let mant : Int := (digitsVal (ip ++ fp) : Int)
      let q : Rat :=
        if 0 ≤ ev then mkRat (mant * (((10 : Nat) ^ ev.toNat : Nat) : Int)) ((10 : Nat) ^ fp.length)
        else mkRat mant ((10 : Nat) ^ (fp.length + (-ev).toNat))
      some (if neg then -q else q)

/-- The string cleanup of `_normalize_amount_series` (agent.py lines 93-100):
`.str.replace(",", "")`, `.str.replace("(", "-")`, `.str.replace(")", "")`.
All three patterns are single characters, so the chain acts character-wise. -/
def cleanAmount (s : String) : String :=
  String.mk (s.data.filterMap fun c =>
    if c == ',' then none
    else if c == '(' then some '-'
    else if c == ')' then none
    else some c)

/-- How `astype(str)` renders a cell: `NaN` prints as `"nan"`.  The rendering
of numeric cells is only ever consumed where the flows cannot produce numeric
cells; the exact float repr is not modelled. -/
def strOfCell : Cell → String
  | .null => "nan"
  | .str s => s
  | .num q => toString q

/-- The function `_normalize_amount_series` (agent.py lines 93-100) on one cell:
`astype(str)` then the comma/parenthesis cleanup then
`pd.to_numeric(..., errors="coerce")`.
* a `null` cell renders as `"nan"`, which `to_numeric` maps back to `NaN`
  (modelled: `parseNumber` rejects it, giving `null`);
* a numeric cell round-trips through its repr unchanged (Python float repr is
  exact), modelled as the identity;
* a string cell is cleaned and parsed, unparseable remainders becoming null. -/
def normalizeAmountCell : Cell → Cell
  | .num q => .num q
  | .null =>
    match parseNumber (cleanAmount "nan") with
    | some q => .num q
    | none => .null
  | .str s =>
    match parseNumber (cleanAmount s) with
    | some q => .num q
    | none => .null

/-- The function `_normalize_amount_series` over a whole column. -/
def normalize_amount_series (cells : List Cell) : List Cell :=
  cells.map normalizeAmountCell


/-- A column name is "amount-like" when its lowercase form contains one of the
substrings `amount`, `debit`, `credit`, `balance` (agent.py lines 242-244,
268, 288-290). -/
def isAmountLike (c : String) : Bool :=
  strContains (lowerStr c) "amount" || strContains (lowerStr c) "debit" ||
    strContains (lowerStr c) "credit" || strContains (lowerStr c) "balance"

/-- Apply `_normalize_amount_series` to the amount-like columns of one row. -/
def normalizeAmountRow (cols : List String) (r : List Cell) : List Cell :=
  (cols.zip r).map fun p => if isAmountLike p.1 then normalizeAmountCell p.2 else p.2

/-- Normalize every amount-like column of a table (agent.py lines 241-246;
re-applied to the produced table alone at lines 287-295). -/
def normalizeAmountTable (t : Table) : Table :=
  { t with rows := t.rows.map (normalizeAmountRow t.cols) }

/-- The header-artifact test on a (stringified) description cell: after
`str.strip()`, the regex `^(description|date|debit|credit|balance|-+)$` with
`case=False` (agent.py lines 223-231). -/
def isHeaderArtifactDesc (s : String) : Bool :=
  let d := lowerStr (trimStr s)
  d == "description" || d == "date" || d == "debit" || d == "credit" ||
    d == "balance" || (decide (0 < d.data.length) && d.data.all (· == '-'))

/-- The row mask of the header-artifact filter: `Date` cell is null and the
stringified, stripped `Description` cell matches the header regex. -/
def headerRowMask (di si : Nat) (r : List Cell) : Bool :=
  (r.getD di Cell.null).isNull && isHeaderArtifactDesc (strOfCell (r.getD si Cell.null))

/-- Header-artifact row filtering (agent.py lines 220-233): applied only when
the produced table has columns literally named `Date` and `Description`;
drops each row whose `Date` is null and whose stripped `Description` equals a
header word or a run of dashes, case-insensitively. -/
def headerFilter (t : Table) : Table :=
  match t.cols.findIdx? (· == "Date"), t.cols.findIdx? (· == "Description") with
  | some di, some si => { t with rows := t.rows.filter fun r => !headerRowMask di si r }
  | _, _ => t

/-- The row mask of the fully-empty-row cleanup: null `Date` and every other
field null (agent.py line 283). -/
def emptyRowMask (di ncols : Nat) (r : List Cell) : Bool :=
  (r.getD di Cell.null).isNull &&
    (List.range ncols).all fun j => j == di || (r.getD j Cell.null).isNull

/-- Drop fully empty produced rows (agent.py lines 281-285): applied only when
a column is literally named `Date`. -/
def emptyRowCleanup (t : Table) : Table :=
  match t.cols.findIdx? (· == "Date") with
  | some di => { t with rows := t.rows.filter fun r => !emptyRowMask di t.cols.length r }
  | none => t

/-- First expected column whose lowercased name starts with `date`
(agent.py line 249). -/
def firstDateCol (e : Table) : Option String :=
  e.cols.find? fun c => strStartsWith (lowerStr c) "date"

/-- Cells of a named column; a missing column yields the empty series, like
the `except` fallback at agent.py lines 256-257. -/
def getColCells (t : Table) (c : String) : List Cell :=
  match t.cols.findIdx? (· == c) with
  | some i => t.rows.map fun r => r.getD i Cell.null
  | none => []

/-- The date samples the heuristic inspects (agent.py line 258): the first 5
non-null values of the produced date column, stringified
(`col.dropna().astype(str).head(5).tolist()`). -/
def dateSamples (e p : Table) : List String :=
  match firstDateCol e with
  | none => []
  | some dc => (((getColCells p dc).filter fun c => !c.isNull).take 5).map strOfCell

/-- The per-value trigger of the date heuristic (agent.py line 259):
`len(x.split("-")[0]) == 4`. -/
def firstDashComponentLen4 (x : String) : Bool :=
  ((splitOnChar '-' x.data).headD []).length == 4

/-- Date-format heuristic (agent.py lines 248-265): runs only when some
expected column has a lowercased name starting with `date`; fires, returning the
sample values, when any inspected sample has a length-4 first
dash-component. -/
def dateHeuristic (e p : Table) : Option (List String) :=
  match firstDateCol e with
  | none => none
  | some _ =>
    let got := dateSamples e p
    if got.any firstDashComponentLen4 then some got else none

/-- The produced table after header filtering and amount normalization, as it
stands when the date heuristic runs. -/
def pNorm (p : Table) : Table :=
  normalizeAmountTable (headerFilter p)

/-- The produced table at the final equality check: empty-row cleanup, the
unconditional second amount normalization, then truncation to the expected
row count (agent.py lines 281-299). -/
def pFinal (p e : Table) : Table :=
  let p4 := normalizeAmountTable (emptyRowCleanup (pNorm p))
  if p4.rows.length > (normalizeAmountTable e).rows.length then
    { p4 with rows := p4.rows.take (normalizeAmountTable e).rows.length }
  else p4

/-- Table shape `(rows, columns)` as reported in the generic diagnostic. -/
def tableShape (t : Table) : Nat × Nat :=
  (t.rows.length, t.cols.length)

/-- Classified outcome of the execute-and-validate stage. -/
inductive CompareResult where
  | colMismatch (parsedCols expectedCols : List String)
  | dateFormatMismatch (samples : List String)
  | matched
  | genericMismatch (parsedShape expectedShape : Nat × Nat)
  | readFail
deriving DecidableEq, Repr

/-- The comparison pipeline of `execute_and_validate_node` (agent.py lines
220-316) on two successfully read tables.  The second component records
whether `os.remove(tmp_out)` ran on that exit path:
* column mismatch (line 238): removed;
* date-format mismatch (lines 260-265): the return carries the samples but
  performs no removal;
* the numeric-mismatch heuristic (lines 267-279) only logs and never returns,
  so it does not appear as a branch;
* match (lines 301-307) and generic mismatch (lines 309-316): removed. -/
def compareTables (parsed expected : Table) : CompareResult × Bool :=
  if (headerFilter parsed).cols ≠ expected.cols then
    (.colMismatch (headerFilter parsed).cols expected.cols, true)
  else
    match dateHeuristic (normalizeAmountTable expected) (pNorm parsed) with
    | some got => (.dateFormatMismatch got, false)
    | none =>
      if pFinal parsed expected = normalizeAmountTable expected then (.matched, true)
      else
        (.genericMismatch (tableShape (pFinal parsed expected))
          (tableShape (normalizeAmountTable expected)), true)

/-- The execute-and-validate stage from the point where the temporary output
file is consumed (agent.py lines 209-316).  `readResult` is `none` when
reading the CSVs raises (the `Could not read CSVs` path, lines 209-218, which
removes the temporary file only if it exists — `tmpExists`). -/
def executeValidate (readResult : Option (Table × Table)) (tmpExists : Bool) :
    CompareResult × Bool :=
  match readResult with
  | none => (.readFail, tmpExists)
  | some (parsed, expected) => compareTables parsed expected

/-- Whether a comparison outcome is the date-format diagnostic. -/
def isDateFormatDiag : CompareResult → Bool
  | .dateFormatMismatch _ => true
  | _ => false

/-- Month-name-free digit-group parse: `some` of the value when the group is
nonempty and all digits. -/
def toNatDigits? (cs : List Char) : Option Nat :=
  if cs.isEmpty then none
  else if cs.all Char.isDigit then some (digitsVal cs) else none

/-- Days in a month, with Gregorian leap years. -/
def daysInMonth (m y : Nat) : Nat :=
  if m == 2 then
    if (y % 4 == 0 && y % 100 != 0) || y % 400 == 0 then 29 else 28
  else if m == 4 || m == 6 || m == 9 || m == 11 then 30
  else 31

/-- Calendar validity of a day/month/year triple. -/
def validDate (d m y : Nat) : Bool :=
  1 ≤ m && m ≤ 12 && 1 ≤ d && d ≤ daysInMonth m y

/-- Model of `pd.to_datetime(s, errors="coerce", dayfirst=True)` (icici_parser.py line
198) on the dash- or slash-separated numeric date shapes the flow produces
(`DD-MM-YYYY`, `DD/MM/YYYY`, `YYYY-MM-DD`): a 4-digit first group is parsed
year-first; otherwise the first group is the day (`dayfirst=True`), falling
back to month-first when the day-first reading is not a valid date, as pandas
does.  Two-digit years, month names and all other shapes coerce to `NaT`
(`none`); so does every invalid date. -/
def parseDateDayfirst (s : String) : Option (Nat × Nat × Nat) :=
  let cs := s.data
  let parts :=
    if cs.any (· == '-') then splitOnChar '-' cs
    else if cs.any (· == '/') then splitOnChar '/' cs
    else [cs]
  match parts with
  | [a, b, c] =>
    match toNatDigits? a, toNatDigits? b, toNatDigits? c with
    | some x, some y, some z =>
      if a.length == 4 then
        if validDate z y x then some (z, y, x) else none
      else if c.length == 4 then
        if validDate x y z then some (x, y, z)
        else if validDate y x z then some (y, x, z)
        else none
      else none
    | _, _, _ => none
  | _ => none

/-- One decimal digit character. -/
def digitChar (n : Nat) : Char :=
  match n % 10 with
  | 0 => '0' | 1 => '1' | 2 => '2' | 3 => '3' | 4 => '4'
  | 5 => '5' | 6 => '6' | 7 => '7' | 8 => '8' | _ => '9'

/-- Two-digit zero-padded rendering (`%d`, `%m`). -/
def pad2 (n : Nat) : List Char :=
  [digitChar (n / 10), digitChar n]

/-- Four-digit zero-padded rendering (`%Y`). -/
def pad4 (n : Nat) : List Char :=
  [digitChar (n / 1000), digitChar (n / 100), digitChar (n / 10), digitChar n]

/-- Rendering `.dt.strftime("%d-%m-%Y")` of a parsed date. -/
def renderDMY (d m y : Nat) : String :=
  String.mk (pad2 d ++ '-' :: pad2 m ++ '-' :: pad4 y)

/-- The date normalization of the generated parser (icici_parser.py lines
195-200): `pd.to_datetime(..., errors="coerce", dayfirst=True)` then
`.dt.strftime("%d-%m-%Y")`, with the `NaT` rendering replaced by `None`.
A null cell stays null (`NaT` → `"NaT"` → `None`); an unparseable string
becomes null; numeric cells do not occur in this flow (the column was
stringified at line 193) and are modelled as coercing to null. -/
def normalizeDateCell : Cell → Cell
  | .null => .null
  | .num _ => .null
  | .str s =>
    match parseDateDayfirst s with
    | some (d, m, y) => .str (renderDMY d m y)
    | none => .null

/-- The date normalization over a whole column. -/
def normalize_date_series (cells : List Cell) : List Cell :=
  cells.map normalizeDateCell

/-- A cell already in normalized date form: null, or exactly the
`DD-MM-YYYY` rendering of the valid date it parses to. -/
def isCanonicalDateCell : Cell → Bool
  | .null => true
  | .num _ => false
  | .str s =>
    match parseDateDayfirst s with
    | some (d, m, y) => s == renderDMY d m y
    | none => false


/-- One event of the retry controller: performing the attempt with the given
1-based index, or sleeping the fixed backoff (`time.sleep(BACKOFF_SEC)`,
agent.py line 327). -/
inductive LoopEvent where
  | attempt (n : Nat)
  | sleep
deriving DecidableEq, Repr

/-- Terminal outcome of the retry controller: success, or failure carrying the
diagnostic and index of the final attempt. -/
inductive LoopOutcome where
  | success (attempts : Nat)
  | failure (lastFeedback : String) (attempts : Nat)
deriving DecidableEq, Repr

/-- The retry loop from attempt `a` on (agent.py: `decide_node` lines 318-324,
`retry_node` lines 326-328, wired at lines 342-347).  `step n` is the
diagnostic outcome of attempt `n` (`none` = the attempt matched).  The guard
`maxTries ≤ a` is the check `st["attempt"] >= MAX_TRIES` of `decide_node`.  `fuel`
bounds the recursion; callers pass `fuel ≥ maxTries - a`, so the
fuel-exhaustion branch is unreachable. -/
def runFrom (step : Nat → Option String) (maxTries : Nat) : Nat → Nat → List LoopEvent × LoopOutcome
  | a, fuel =>
    match step a with
    | none => ([.attempt a], .success a)
    | some d =>
      if maxTries ≤ a then ([.attempt a], .failure d a)
      else
        match fuel with
        | 0 => ([.attempt a], .failure d a)
        | fuel' + 1 =>
          let r := runFrom step maxTries (a + 1) fuel'
          (.attempt a :: .sleep :: r.1, r.2)

/-- The whole run: `init_attempt` starts the counter at 1 (agent.py lines
330-331), then the generate/execute/decide/retry loop. -/
def runLoop (step : Nat → Option String) (maxTries : Nat) : List LoopEvent × LoopOutcome :=
  runFrom step maxTries 1 maxTries

/-- Attempts `ns` interleaved with exactly one backoff sleep between each
consecutive pair. -/
def interleaveSleeps : List Nat → List LoopEvent
  | [] => []
  | [n] => [.attempt n]
  | n :: rest => .attempt n :: .sleep :: interleaveSleeps rest

/-- The nodes of the LangGraph state graph (agent.py lines 336-348). -/
inductive Node where
  | init | generate | execute | retry | terminal
deriving DecidableEq, Repr

/-- The node `decide_node` (agent.py lines 318-324): terminal when feedback is absent;
terminal when the attempt counter has reached `MAX_TRIES`; otherwise retry. -/
def decideNode (feedback : Option String) (attempt maxTries : Nat) : Node :=
  match feedback with
  | none => .terminal
  | some _ => if maxTries ≤ attempt then .terminal else .retry

/-- The transition function of the graph (agent.py lines 342-346): `init →
generate`, `generate → execute` (unconditional edge, line 344), `execute →`
the conditional edge through `decide_node`, `retry → generate`. -/
def nextNode : Node → Option String → Nat → Nat → Node
  | .init, _, _, _ => .generate
  | .generate, _, _, _ => .execute
  | .execute, fb, a, m => decideNode fb a m
  | .retry, _, _, _ => .generate
  | .terminal, _, _, _ => .terminal

/-- The state-update dict returned by `generate_code_node` (agent.py lines
148-180): each field is `some v` when the dict returned by the node contains that
key (LangGraph merges only returned keys into the state). -/
structure GenUpdate where
  feedback : Option String
  code : Option String
  parserPy : Option String
deriving DecidableEq, Repr

/-- The diagnostic text returned on an empty generation (agent.py line 178). -/
def emptyGenFeedback : String :=
  "Empty generation after fence stripping; regenerate the full module with parse() and CLI."

/-- The node `generate_code_node` after fence stripping (agent.py lines 170-180): an
empty stripped text returns only the empty-generation feedback, leaving
`code` and `parser_py` unset; otherwise the node returns the code and the
artifact path and leaves `feedback` unset. -/
def generateNode (strippedText : String) (bank : String) : GenUpdate :=
  if strippedText = "" then
    { feedback := some emptyGenFeedback, code := none, parserPy := none }
  else
    { feedback := none, code := some strippedText, parserPy := some (bank ++ "_parser.py") }

/-- Whether `execute_and_validate_node` spawns the child process for the code
it is given (agent.py lines 188-196): after persisting the code, the node
returns early only when the text lacks `def parse(`; otherwise
`subprocess.run` is invoked. -/
def executeSpawns (code : String) : Bool :=
  strContains code "def parse("

/-- The claim-level description predicate of the header-artifact filter, in
the words of the spec: the whitespace-stripped description equals, case
insensitively, one of the literal header words, or is a run of one or more
dash characters. -/
def specHeaderWord (s : String) : Prop :=
  lowerStr (trimStr s) = "description" ∨ lowerStr (trimStr s) = "date" ∨
    lowerStr (trimStr s) = "debit" ∨ lowerStr (trimStr s) = "credit" ∨
    lowerStr (trimStr s) = "balance" ∨
    ((trimStr s).data ≠ [] ∧ ∀ c ∈ (trimStr s).data, c = '-')

/-- The claim-level trigger of the date heuristic: the sample begins with a
4-digit component (its first dash-separated component is four digits). -/
def firstComponentIsFourDigits (x : String) : Bool :=
  ((splitOnChar '-' x.data).headD []).length == 4 &&
    ((splitOnChar '-' x.data).headD []).all Char.isDigit

/-- Expected table of the end-to-end scenario: one salary row in canonical
`DD-MM-YYYY` form. -/
def expEx : Table :=
  { cols := ["Date", "Description", "Debit Amt", "Credit Amt", "Balance"],
    rows := [[.str "01-08-2024", .str "Salary", .null, .str "5000.00", .str "15000.00"]] }

/-- Produced table identical to `expEx` except that the date is rendered
year-first. -/
def pDateEx : Table :=
  { cols := ["Date", "Description", "Debit Amt", "Credit Amt", "Balance"],
    rows := [[.str "2024-08-01", .str "Salary", .null, .str "5000.00", .str "15000.00"]] }

/-- Produced table equal to `expEx` on its first row plus one extra trailing
row. -/
def pExtraEx : Table :=
  { cols := ["Date", "Description", "Debit Amt", "Credit Amt", "Balance"],
    rows := [[.str "01-08-2024", .str "Salary", .null, .str "5000.00", .str "15000.00"],
             [.str "02-08-2024", .str "Trailing junk", .null, .null, .str "15000.00"]] }

/-- Produced table whose second column name differs from `expEx`. -/
def pColsEx : Table :=
  { cols := ["Date", "Narration", "Debit Amt", "Credit Amt", "Balance"],
    rows := [[.str "01-08-2024", .str "Salary", .null, .str "5000.00", .str "15000.00"]] }

/-- Produced table containing leaked header rows around one data row. -/
def pHeaderEx : Table :=
  { cols := ["Date", "Description", "Debit Amt", "Credit Amt", "Balance"],
    rows := [[.null, .str " DESCRIPTION ", .null, .null, .null],
             [.str "01-08-2024", .str "Salary", .null, .str "5000.00", .str "15000.00"],
             [.null, .str "----", .null, .null, .null]] }

/-- A table whose column names are lowercase, lacking the literal `Date` and
`Description` names the filters require. -/
def pLowerEx : Table :=
  { cols := ["date", "description"],
    rows := [[.null, .str "Description"]] }

/-- An expected table none of whose column names starts with `date` when
lowercased. -/
def eNoDateEx : Table :=
  { cols := ["Day", "Description"],
    rows := [] }

theorem headerFilter_cols (t : Table) : (headerFilter t).cols = t.cols := by
  unfold headerFilter
  split <;> rfl

theorem normalizeAmountTable_cols (t : Table) : (normalizeAmountTable t).cols = t.cols := rfl

theorem emptyRowCleanup_cols (t : Table) : (emptyRowCleanup t).cols = t.cols := by
  unfold emptyRowCleanup
  split <;> rfl

theorem pNorm_cols (p : Table) : (pNorm p).cols = p.cols := by
  unfold pNorm
  rw [normalizeAmountTable_cols, headerFilter_cols]

theorem table_eq_of_parts (t u : Table) (h1 : t.cols = u.cols) (h2 : t.rows = u.rows) :
    t = u := by
  cases t
  cases u
  cases h1
  cases h2
  rfl

/-- C1.  Schema gate: whenever the produced and expected column sequences
differ (the check running after header-artifact row filtering, which
preserves columns), the comparator returns `ColumnSchemaMismatch` carrying
both column sequences, and the result — the same for every choice of cell
contents of tables with those columns — involves no value-level work: no
normalization outcome, date heuristic, row cleanup, truncation or equality
check can influence the returned pair. -/
theorem schema_gate_short_circuits (p e : Table) (h : p.cols ≠ e.cols) :
    compareTables p e = (.colMismatch p.cols e.cols, true) := by
  unfold compareTables
  rw [headerFilter_cols]
  rw [if_pos h]

/-- Witness for C1 at concrete tables differing in their second column
name. -/
theorem schema_gate_short_circuits_witness :
    pColsEx.cols ≠ expEx.cols ∧
      compareTables pColsEx expEx = (.colMismatch pColsEx.cols expEx.cols, true) :=
  ⟨by decide, schema_gate_short_circuits pColsEx expEx (by decide)⟩

/-- C2.  Amount normalization is total on strings and never errors: every
string cell becomes either a number or null, and on the examples of the spec
`"(1,234.50)"` becomes `-1234.50` (the rational `-2469/2`), `"1,234.50"`
becomes `1234.50` (the rational `2469/2`), and `"N/A"` becomes null. -/
theorem amount_normalization_total_and_examples :
    normalizeAmountCell (.str "(1,234.50)") = .num (mkRat (-2469) 2) ∧
    normalizeAmountCell (.str "1,234.50") = .num (mkRat 2469 2) ∧
    normalizeAmountCell (.str "N/A") = .null ∧
    ∀ s : String, normalizeAmountCell (.str s) = .null ∨
      ∃ q : Rat, normalizeAmountCell (.str s) = .num q := by
  refine ⟨by decide, by decide, by decide, fun s => ?_⟩
  cases h : parseNumber (cleanAmount s) with
  | none => exact Or.inl (by simp [normalizeAmountCell, h])
  | some q => exact Or.inr ⟨q, by simp [normalizeAmountCell, h]⟩

theorem any_implies {α : Type} (l : List α) (f g : α → Bool)
    (hfg : ∀ a, f a = true → g a = true) (h : l.any f = true) : l.any g = true := by
  rcases List.any_eq_true.mp h with ⟨a, ha, hfa⟩
  exact List.any_eq_true.mpr ⟨a, ha, hfg a hfa⟩

theorem fourDigits_len4 (x : String) (h : firstComponentIsFourDigits x = true) :
    firstDashComponentLen4 x = true := by
  unfold firstComponentIsFourDigits at h
  unfold firstDashComponentLen4
  simp only [Bool.and_eq_true] at h
  exact h.1

/-- C3.  Date-format heuristic: when the schema check passes and any of the
inspected samples — by definition of `dateSamples` the first 5 non-null,
stringified values of the produced date column — begins with a 4-digit
component, the comparator returns `DateFormatMismatch` carrying exactly those
samples, and no later step (row cleanup, re-normalization, truncation, final
equality) can influence the result. -/
theorem date_heuristic_fires_before_equality (p e : Table)
    (hcols : p.cols = e.cols)
    (hhit : (dateSamples (normalizeAmountTable e) (pNorm p)).any
      firstComponentIsFourDigits = true) :
    (compareTables p e).1 =
      .dateFormatMismatch (dateSamples (normalizeAmountTable e) (pNorm p)) := by
  have hlen : (dateSamples (normalizeAmountTable e) (pNorm p)).any
      firstDashComponentLen4 = true :=
    any_implies _ _ _ fourDigits_len4 hhit
  have hdh : dateHeuristic (normalizeAmountTable e) (pNorm p) =
      some (dateSamples (normalizeAmountTable e) (pNorm p)) := by
    unfold dateHeuristic
    cases hfd : firstDateCol (normalizeAmountTable e) with
    | none =>
      exfalso
      simp [dateSamples, hfd] at hlen
    | some c0 => simp [hlen]
  unfold compareTables
  rw [headerFilter_cols, if_neg (fun hne => hne hcols), hdh]

/-- Witness for C3: the end-to-end scenario, a produced table identical to
the expected one except that its date is rendered `2024-08-01`. -/
theorem date_heuristic_fires_before_equality_witness :
    pDateEx.cols = expEx.cols ∧
    (dateSamples (normalizeAmountTable expEx) (pNorm pDateEx)).any
      firstComponentIsFourDigits = true ∧
    (compareTables pDateEx expEx).1 =
      .dateFormatMismatch (dateSamples (normalizeAmountTable expEx) (pNorm pDateEx)) :=
  ⟨by decide, by decide,
    date_heuristic_fires_before_equality pDateEx expEx (by decide) (by decide)⟩

/-- C5.  Evidence for the empty-generation code bug: the edge of the graph out of
`generate` is unconditional (`graph.add_edge("generate", "execute")`,
agent.py line 344), so after an empty generation — which records only the
empty-generation feedback, leaving `code` and `parser_py` unset — the
`execute` node still runs, and it spawns a child process whenever the stale
persisted code contains `def parse(`.  The skip-execution behavior of the claim
does not exist in the graph. -/
theorem empty_generation_graph_still_executes :
    (∀ (fb : Option String) (a m : Nat), nextNode .generate fb a m = .execute) ∧
    (generateNode "" "icici").feedback = some emptyGenFeedback ∧
    (generateNode "" "icici").code = none ∧
    (generateNode "" "icici").parserPy = none ∧
    executeSpawns "def parse(pdf_path):\n    return make_dataframe(pdf_path)" = true := by
  refine ⟨fun fb a m => rfl, by decide, by decide, by decide, by decide⟩

/-- C6 counterexample: at the concrete produced/expected pair whose date
column is rendered year-first, the comparator exits through the date-format
mismatch path without removing the temporary output file — refuting the
claim that the file is removed on that exit path. -/
theorem tmp_removal_missing_on_date_mismatch :
    compareTables pDateEx expEx = (.dateFormatMismatch ["2024-08-01"], false) := by
  decide

/-- C6 amended.  On every exit path of the execute-and-validate stage in
which the temporary output file was created and consumed, except the
date-format mismatch path: match, column-schema mismatch, generic content
mismatch, and unreadable-output failure — the temporary file is removed
before the stage returns.  On the date-format mismatch path the file is left
on disk. -/
theorem tmp_removed_on_nondate_paths (rr : Option (Table × Table)) (tmpExists : Bool)
    (hex : tmpExists = true)
    (hnd : isDateFormatDiag (executeValidate rr tmpExists).1 = false) :
    (executeValidate rr tmpExists).2 = true := by
  cases rr with
  | none => simpa [executeValidate] using hex
  | some pe =>
    obtain ⟨p, e⟩ := pe
    have hnd' : isDateFormatDiag (compareTables p e).1 = false := hnd
    show (compareTables p e).2 = true
    unfold compareTables at hnd' ⊢
    by_cases hcond : (headerFilter p).cols ≠ e.cols
    · rw [if_pos hcond]
    · rw [if_neg hcond] at hnd' ⊢
      cases hdh : dateHeuristic (normalizeAmountTable e) (pNorm p) with
      | some got =>
        rw [hdh] at hnd'
        simp [isDateFormatDiag] at hnd'
      | none =>
        dsimp only
        split <;> rfl

/-- Witness for the amended C6 at a column-mismatch exit with the temporary
file present. -/
theorem tmp_removed_on_nondate_paths_witness :
    isDateFormatDiag (executeValidate (some (pColsEx, expEx)) true).1 = false ∧
    (executeValidate (some (pColsEx, expEx)) true).2 = true :=
  ⟨by decide, tmp_removed_on_nondate_paths (some (pColsEx, expEx)) true rfl (by decide)⟩

theorem interleaveSleeps_cons_cons (n k : Nat) (rest : List Nat) :
    interleaveSleeps (n :: k :: rest) =
      .attempt n :: .sleep :: interleaveSleeps (k :: rest) := rfl

theorem runFrom_all_fail (step : Nat → Option String) (d : Nat → String)
    (hstep : ∀ n, step n = some (d n)) (m : Nat) :
    ∀ fuel a, 1 ≤ a → a ≤ m → m ≤ a + fuel →
      runFrom step m a fuel =
        (interleaveSleeps (List.range' a (m + 1 - a)), .failure (d m) m) := by
  intro fuel
  induction fuel with
  | zero =>
    intro a h1 h2 h3
    have ha : a = m := by omega
    subst ha
    have e1 : a + 1 - a = 1 := by omega
    rw [e1]
    unfold runFrom
    rw [hstep a]
    simp [le_refl, interleaveSleeps]
  | succ fuel ih =>
    intro a h1 h2 h3
    by_cases hm : m ≤ a
    · have ha : a = m := by omega
      subst ha
      have e1 : a + 1 - a = 1 := by omega
      rw [e1]
      unfold runFrom
      rw [hstep a]
      simp [le_refl, interleaveSleeps]
    · have hlt : a < m := by omega
      unfold runFrom
      rw [hstep a]
      dsimp only
      rw [if_neg hm]
      rw [ih (a + 1) (by omega) (by omega) (by omega)]
      have e1 : m + 1 - a = (m - a) + 1 := by omega
      have e2 : m + 1 - (a + 1) = m - a := by omega
      have e3 : m - a = (m - (a + 1)) + 1 := by omega
      rw [e1, List.range'_succ, e3, List.range'_succ, interleaveSleeps_cons_cons,
        ← List.range'_succ, ← e3, ← e2]

theorem attempt_mem_interleaveSleeps :
    ∀ (l : List Nat) (n : Nat), LoopEvent.attempt n ∈ interleaveSleeps l → n ∈ l
  | [], n => by simp [interleaveSleeps]
  | [k], n => by
    simp [interleaveSleeps]
  | a :: b :: rest, n => by
    rw [interleaveSleeps_cons_cons]
    intro h
    rcases List.mem_cons.mp h with h1 | h2
    · cases h1
      exact List.mem_cons_self a (b :: rest)
    · rcases List.mem_cons.mp h2 with h3 | h4
      · cases h3
      · exact List.mem_cons_of_mem a (attempt_mem_interleaveSleeps (b :: rest) n h4)

/-- C4.  Bounded retries: whenever every attempt yields a diagnostic, the run
starting at attempt 1 performs exactly the attempts `1, …, maxTries` in
order, with exactly one backoff sleep between each consecutive pair of
attempts, terminates with failure carrying the diagnostic of the final attempt,
and performs no attempt whose index exceeds `maxTries`. -/
theorem bounded_retries_exact (step : Nat → Option String) (d : Nat → String) (m : Nat)
    (hstep : ∀ n, step n = some (d n)) (hm : 1 ≤ m) :
    runLoop step m = (interleaveSleeps (List.range' 1 m), .failure (d m) m) ∧
    ∀ n, LoopEvent.attempt n ∈ (runLoop step m).1 → 1 ≤ n ∧ n ≤ m := by
  have h := runFrom_all_fail step d hstep m m 1 (le_refl 1) hm (by omega)
  have e1 : m + 1 - 1 = m := by omega
  rw [e1] at h
  refine ⟨h, fun n hn => ?_⟩
  rw [show runLoop step m = runFrom step m 1 m from rfl, h] at hn
  have hmem : n ∈ List.range' 1 m := attempt_mem_interleaveSleeps _ n hn
  have := List.mem_range'_1.mp hmem
  omega

/-- Witness for C4 with the default `MAX_TRIES = 6` and a step function that
always produces the same diagnostic. -/
theorem bounded_retries_exact_witness :
    (∀ n, (fun _ : Nat => some "diagnostic") n = some ((fun _ : Nat => "diagnostic") n)) ∧
    1 ≤ 6 ∧
    (runLoop (fun _ => some "diagnostic") 6 =
        (interleaveSleeps (List.range' 1 6), .failure "diagnostic" 6) ∧
      ∀ n, LoopEvent.attempt n ∈ (runLoop (fun _ => some "diagnostic") 6).1 →
        1 ≤ n ∧ n ≤ 6) :=
  ⟨fun _ => rfl, by decide,
    bounded_retries_exact (fun _ => some "diagnostic") (fun _ => "diagnostic") 6
      (fun _ => rfl) (by decide)⟩

theorem lowerStr_data (s : String) : (lowerStr s).data = s.data.map charLower := rfl

theorem charLower_beq_dash (c : Char) : (charLower c == '-') = (c == '-') := by
  unfold charLower
  split <;> rfl

theorem all_dash_map_lower (l : List Char) :
    (l.map charLower).all (· == '-') = l.all (· == '-') := by
  induction l with
  | nil => rfl
  | cons c cs ih => simp only [List.map_cons, List.all_cons, ih, charLower_beq_dash]

/-- The coded header-artifact test agrees with the claim-level predicate. -/
theorem isHeaderArtifactDesc_iff (s : String) :
    isHeaderArtifactDesc s = true ↔ specHeaderWord s := by
  unfold isHeaderArtifactDesc specHeaderWord
  simp only [Bool.or_eq_true, beq_iff_eq, Bool.and_eq_true, decide_eq_true_eq,
    lowerStr_data, List.length_map, all_dash_map_lower, List.all_eq_true,
    List.length_pos]
  tauto

theorem headerRowMask_iff (di si : Nat) (r : List Cell) :
    headerRowMask di si r = false ↔
      ¬((r.getD di Cell.null).isNull = true ∧
        specHeaderWord (strOfCell (r.getD si Cell.null))) := by
  unfold headerRowMask
  rw [Bool.eq_false_iff, Ne]
  simp only [Bool.and_eq_true, isHeaderArtifactDesc_iff]

/-- C7.  Header-artifact filtering characterization: a row of the produced
table survives the filter exactly when it is not the case that its date field
is null and its whitespace-stripped description equals, case-insensitively,
one of the literal words `description`, `date`, `debit`, `credit`, `balance`
or a run of one or more dash characters; rows failing either condition are
all retained and the rest are dropped, before any schema or equality
check. -/
theorem header_artifact_filter_characterization (p : Table) (di si : Nat)
    (hdi : p.cols.findIdx? (· == "Date") = some di)
    (hsi : p.cols.findIdx? (· == "Description") = some si) :
    ∀ r, r ∈ (headerFilter p).rows ↔
      (r ∈ p.rows ∧
        ¬((r.getD di Cell.null).isNull = true ∧
          specHeaderWord (strOfCell (r.getD si Cell.null)))) := by
  intro r
  unfold headerFilter
  rw [hdi, hsi]
  simp only [List.mem_filter, Bool.not_eq_true']
  rw [headerRowMask_iff]

/-- Witness for C7 at a produced table with a leaked `DESCRIPTION` header
row, a data row, and a dash-run row. -/
theorem header_artifact_filter_characterization_witness :
    pHeaderEx.cols.findIdx? (· == "Date") = some 0 ∧
    pHeaderEx.cols.findIdx? (· == "Description") = some 1 ∧
    ∀ r, r ∈ (headerFilter pHeaderEx).rows ↔
      (r ∈ pHeaderEx.rows ∧
        ¬((r.getD 0 Cell.null).isNull = true ∧
          specHeaderWord (strOfCell (r.getD 1 Cell.null)))) :=
  ⟨by decide, by decide,
    header_artifact_filter_characterization pHeaderEx 0 1 (by decide) (by decide)⟩

/-- C8.  Over-capture tolerance: when the schema check passes, the date
heuristic does not fire, and the produced table — after cleanup and
normalization — agrees with the normalized expected table on its first
`expected`-row-count rows (in particular when it merely has extra trailing
rows beyond them), the comparator truncates it to the expected row count,
keeping the initial rows, and classifies the pair as a match. -/
theorem over_capture_truncation_match (p e : Table)
    (hcols : p.cols = e.cols)
    (hheur : dateHeuristic (normalizeAmountTable e) (pNorm p) = none)
    (hrows : (normalizeAmountTable (emptyRowCleanup (pNorm p))).rows.take
        (normalizeAmountTable e).rows.length = (normalizeAmountTable e).rows) :
    (compareTables p e).1 = .matched := by
  have hc : (normalizeAmountTable (emptyRowCleanup (pNorm p))).cols =
      (normalizeAmountTable e).cols := by
    rw [normalizeAmountTable_cols, emptyRowCleanup_cols, pNorm_cols, hcols,
      normalizeAmountTable_cols]
  have hfin : pFinal p e = normalizeAmountTable e := by
    unfold pFinal
    by_cases hlen : (normalizeAmountTable (emptyRowCleanup (pNorm p))).rows.length >
        (normalizeAmountTable e).rows.length
    · rw [if_pos hlen]
      exact table_eq_of_parts _ _ hc hrows
    · rw [if_neg hlen]
      have hle : (normalizeAmountTable (emptyRowCleanup (pNorm p))).rows.length ≤
          (normalizeAmountTable e).rows.length := by omega
      have : (normalizeAmountTable (emptyRowCleanup (pNorm p))).rows =
          (normalizeAmountTable e).rows := by
        rw [← hrows]
        exact (List.take_of_length_le hle).symm
      exact table_eq_of_parts _ _ hc this
  unfold compareTables
  rw [headerFilter_cols, if_neg (fun hne => hne hcols), hheur]
  dsimp only
  rw [if_pos hfin]

/-- Witness for C8: a produced table equal to the expected one on its first
row plus one extra trailing row is classified as a match. -/
theorem over_capture_truncation_match_witness :
    pExtraEx.cols = expEx.cols ∧
    dateHeuristic (normalizeAmountTable expEx) (pNorm pExtraEx) = none ∧
    (normalizeAmountTable (emptyRowCleanup (pNorm pExtraEx))).rows.take
        (normalizeAmountTable expEx).rows.length = (normalizeAmountTable expEx).rows ∧
    (compareTables pExtraEx expEx).1 = .matched :=
  ⟨by decide, by decide, by decide,
    over_capture_truncation_match pExtraEx expEx (by decide) (by decide) (by decide)⟩

theorem normalizeAmountCell_null : normalizeAmountCell .null = .null := by decide

theorem normalizeAmountCell_idem (c : Cell) :
    normalizeAmountCell (normalizeAmountCell c) = normalizeAmountCell c := by
  cases c with
  | num q => rfl
  | null => rw [normalizeAmountCell_null, normalizeAmountCell_null]
  | str s =>
    cases h : parseNumber (cleanAmount s) with
    | none =>
      have h1 : normalizeAmountCell (.str s) = .null := by
        simp only [normalizeAmountCell, h]
      rw [h1, normalizeAmountCell_null]
    | some q =>
      have h1 : normalizeAmountCell (.str s) = .num q := by
        simp only [normalizeAmountCell, h]
      rw [h1]
      exact rfl

theorem normalizeDateCell_canon_fix (c : Cell) (h : isCanonicalDateCell c = true) :
    normalizeDateCell c = c := by
  cases c with
  | null => rfl
  | num q => simp [isCanonicalDateCell] at h
  | str s =>
    simp only [isCanonicalDateCell] at h
    cases hp : parseDateDayfirst s with
    | none => rw [hp] at h; simp at h
    | some t =>
      obtain ⟨d, m, y⟩ := t
      rw [hp] at h
      have hs : s = renderDMY d m y := by simpa using h
      simp only [normalizeDateCell, hp]
      rw [← hs]

theorem normalize_date_series_fix :
    ∀ col : List Cell, col.all isCanonicalDateCell = true →
      normalize_date_series col = col
  | [], _ => rfl
  | c :: cs, h => by
    rw [List.all_cons, Bool.and_eq_true] at h
    unfold normalize_date_series
    simp only [List.map_cons]
    rw [normalizeDateCell_canon_fix c h.1]
    have htail := normalize_date_series_fix cs h.2
    unfold normalize_date_series at htail
    rw [htail]

/-- C9.  Normalization is idempotent: re-applying the amount normalization to
its own output leaves every series unchanged, and the date normalization is
the identity on any column that already consists of canonical `DD-MM-YYYY`
date strings and nulls. -/
theorem normalization_idempotent (xs : List Cell) (col : List Cell)
    (hcanon : col.all isCanonicalDateCell = true) :
    normalize_amount_series (normalize_amount_series xs) = normalize_amount_series xs ∧
    normalize_date_series col = col := by
  refine ⟨?_, normalize_date_series_fix col hcanon⟩
  unfold normalize_amount_series
  induction xs with
  | nil => rfl
  | cons c cs ih =>
    simp only [List.map_cons, normalizeAmountCell_idem]
    simp only [List.map_cons] at ih
    rw [ih]

/-- Witness for C9 at a mixed amount column and a canonical date column. -/
theorem normalization_idempotent_witness :
    [Cell.str "01-08-2024", Cell.null].all isCanonicalDateCell = true ∧
    (normalize_amount_series (normalize_amount_series
        [Cell.str "1,234.50", Cell.null, Cell.str "N/A", Cell.str "(5,000.00)"]) =
      normalize_amount_series
        [Cell.str "1,234.50", Cell.null, Cell.str "N/A", Cell.str "(5,000.00)"] ∧
    normalize_date_series [Cell.str "01-08-2024", Cell.null] =
      [Cell.str "01-08-2024", Cell.null]) :=
  ⟨by decide,
    normalization_idempotent
      [Cell.str "1,234.50", Cell.null, Cell.str "N/A", Cell.str "(5,000.00)"]
      [Cell.str "01-08-2024", Cell.null] (by decide)⟩

/-- C10.  Literal-name conditioning: the header-artifact filter is a no-op
unless the produced table has columns literally named `Date` and
`Description`; the fully-empty-row cleanup is a no-op unless a column is
literally named `Date`; and the date heuristic emits no diagnostic unless
some expected column has a lowercased name starting with `date`. -/
theorem literal_column_name_conditioning (p e : Table) :
    ((p.cols.findIdx? (· == "Date") = none ∨ p.cols.findIdx? (· == "Description") = none) →
      headerFilter p = p) ∧
    (p.cols.findIdx? (· == "Date") = none → emptyRowCleanup p = p) ∧
    (firstDateCol e = none → ∀ q : Table, dateHeuristic e q = none) := by
  refine ⟨?_, ?_, ?_⟩
  · intro h
    unfold headerFilter
    rcases h with h | h
    · rw [h]
    · cases hx : p.cols.findIdx? (· == "Date") with
      | none => rfl
      | some di => rw [h]
  · intro h
    unfold emptyRowCleanup
    rw [h]
  · intro h q
    unfold dateHeuristic
    rw [h]

/-- Witness for C10 at tables whose column names are lowercase (`date`,
`description`) or date-free (`Day`). -/
theorem literal_column_name_conditioning_witness :
    (pLowerEx.cols.findIdx? (· == "Date") = none ∨
      pLowerEx.cols.findIdx? (· == "Description") = none) ∧
    headerFilter pLowerEx = pLowerEx ∧
    pLowerEx.cols.findIdx? (· == "Date") = none ∧
    emptyRowCleanup pLowerEx = pLowerEx ∧
    firstDateCol eNoDateEx = none ∧
    dateHeuristic eNoDateEx pLowerEx = none :=
  ⟨Or.inl (by decide),
    (literal_column_name_conditioning pLowerEx eNoDateEx).1 (Or.inl (by decide)),
    by decide,
    (literal_column_name_conditioning pLowerEx eNoDateEx).2.1 (by decide),
    by decide,
    (literal_column_name_conditioning pLowerEx eNoDateEx).2.2 (by decide) pLowerEx⟩
